import Mathlib

/-
Formal model of the scholar-search backend (`backend/src/backend/main.py`):
title normalization, the fuzzy title matcher, the greedy title-deduplication
pass, the PubMed/Semantic-Scholar reconciliation pipeline of `search_papers`,
and the bounded expiring `SearchCache`.

Modelling conventions:
- Python strings are Lean `String`s; all list-level computation is done on
  `String.data : List Char` so that every definition reduces in the kernel.
- `str.lower()` is modelled on the ASCII range (A-Z ↦ a-z); the titles and
  fixtures considered here contain no non-ASCII uppercase letters, for which
  Python would additionally apply Unicode simple lowercasing.
- `fuzz.ratio` is the classic Levenshtein-ratio: with substitution cost 2 the
  edit distance equals `len(a)+len(b) - 2*LCS(a,b)`, so the score is
  `round(100 * 2*LCS / (len(a)+len(b)))`, rounded half-to-even as Python's
  `round` does; `fuzzywuzzy`'s `check_empty_string` decorator returns 0 when
  either argument is empty.  Exact rational arithmetic replaces the float
  arithmetic of the library; no value considered here lies at a float-rounding
  boundary.
- A pandas `DataFrame` built from a list of record dicts is a Lean list of
  records; a DataFrame built from the empty list has *no columns*, so a
  column access such as `df["pmid"]` raises `KeyError` — modelled by
  `Except.error`.  `NaN` cells arising from outer merge / concat are `none`.
- `datetime.now()` timestamps are abstract `Nat` time units; `uuid4()` handles
  are taken as inputs.
-/

/-! ## Title normalization (`normalize_title`, main.py lines 83-88) -/

/-- ASCII lowercasing, the fragment of Python's `str.lower` used here. -/
def asciiLower (c : Char) : Char :=
  if 65 ≤ c.toNat ∧ c.toNat ≤ 90 then Char.ofNat (c.toNat + 32) else c

/-- Membership in Python's `string.punctuation`
(codepoints 33-47, 58-64, 91-96, 123-126). -/
def isPunct (c : Char) : Bool :=
  decide ((33 ≤ c.toNat ∧ c.toNat ≤ 47) ∨ (58 ≤ c.toNat ∧ c.toNat ≤ 64) ∨
    (91 ≤ c.toNat ∧ c.toNat ≤ 96) ∨ (123 ≤ c.toNat ∧ c.toNat ≤ 126))

/-- `title.replace("â€", "")`: Python's `str.replace` removes occurrences of
the two-character artifact `['â', '€']` in a single left-to-right pass,
resuming *after* each removed occurrence. -/
def removeArtifact : List Char → List Char
  | [] => []
  | [c] => [c]
  | a :: b :: rest =>
    if a = 'â' ∧ b = '€' then removeArtifact rest
    else a :: removeArtifact (b :: rest)

/-- `normalize_title` on the character list: lowercase, strip punctuation,
then remove the mis-encoding artifact. -/
def normalizeChars (l : List Char) : List Char :=
  removeArtifact ((l.map asciiLower).filter (fun c => !(isPunct c)))

/-- `normalize_title(title)` (main.py lines 83-88).  The `str(title)` coercion
is the identity here since the model's titles are strings already. -/
def normalize_title (t : String) : String :=
  String.mk (normalizeChars t.data)

/-! ## Fuzzy similarity (`compare_paper_titles`, main.py lines 91-96) -/

/-- Longest common subsequence length, with explicit structural fuel
(`lcsF n a b` is exact whenever `a.length + b.length ≤ n`). -/
def lcsF : Nat → List Char → List Char → Nat
  | 0, _, _ => 0
  | _ + 1, [], _ => 0
  | _ + 1, _ :: _, [] => 0
  | n + 1, a :: as, b :: bs =>
    if a = b then 1 + lcsF n as bs
    else max (lcsF n (a :: as) bs) (lcsF n as (b :: bs))

/-- Longest common subsequence length of two character lists. -/
def lcs (a b : List Char) : Nat := lcsF (a.length + b.length) a b

/-- Python 3 `round(num/den)` on an exact non-negative rational:
round-half-to-even ("banker's rounding"). -/
def pyRound (num den : Nat) : Nat :=
  let q := num / den
  let r := num % den
  if 2 * r < den then q
  else if den < 2 * r then q + 1
  else if q % 2 = 0 then q else q + 1

/-- `fuzz.ratio(a, b)` on already-normalized character lists:
`round(100 * (2*LCS) / (len a + len b))`, and 0 when either side is empty
(fuzzywuzzy's `check_empty_string` decorator). -/
def similarityScore (a b : List Char) : Nat :=
  if a.isEmpty || b.isEmpty then 0
  else pyRound (200 * lcs a b) (a.length + b.length)

/-- `compare_paper_titles(title1, title2)` (main.py lines 91-96):
normalize both titles and test `fuzz.ratio >= 98`. -/
def compare_paper_titles (t1 t2 : String) : Bool :=
  decide (98 ≤ similarityScore (normalizeChars t1.data) (normalizeChars t2.data))

/-! ## Candidate-pool rows and the greedy dedup pass
(`deduplicate_papers`, main.py lines 342-374) -/

/-- One row of the candidate-pool DataFrame handed to `deduplicate_papers`.
`none` models a `NaN` cell produced by the outer merge or by `pd.concat`
column alignment; `citation_count = none` also covers the literal `0` the
merge lambda substitutes for missing citation data (both turn into the
integer 0 in the response). -/
structure Row where
  pmid : String
  url : Option String
  title : Option String
  abstract : Option String
  authors : Option String
  year : Option String
  pdf_url : Option String
  citation_count : Option String
deriving DecidableEq, Repr

/-- `str(x)` as applied by `normalize_title` to a title cell:
a `NaN` cell prints as `"nan"`. -/
def pyStrCell (o : Option String) : String := o.getD "nan"

/-- The normalized title of a pool row
(`df["title"].apply(normalize_title)`, main.py line 349). -/
def rowNormTitle (r : Row) : List Char := normalizeChars (pyStrCell r.title).data

/-- Whether the dedup pass regards `b` as a duplicate of the kept row `a`
(`similarities >= 98`, main.py line 370). -/
def rowsMatch (a b : Row) : Bool :=
  decide (98 ≤ similarityScore (rowNormTitle a) (rowNormTitle b))

/-- The keep-mask loop of `deduplicate_papers`: a row survives iff no
*earlier surviving* row's normalized title matches it with score ≥ 98;
discarded rows are never used as a source of comparisons.  `kept` carries the
survivors seen so far, in order. -/
def dedupAux (kept : List Row) : List Row → List Row
  | [] => []
  | r :: rs =>
    if kept.any (fun k => rowsMatch k r) then dedupAux kept rs
    else r :: dedupAux (kept ++ [r]) rs

/-- `deduplicate_papers(df)` (main.py lines 342-374): order-preserving greedy
removal of rows whose normalized title scores ≥ 98 against an earlier
surviving row. -/
def deduplicate_papers (l : List Row) : List Row := dedupAux [] l

/-! ## Source records and the reconciliation pipeline
(`search_papers`, main.py lines 410-605) -/

/-- One row of `pubmed_df` (source A) as built by `create_article_dict` and
`pd.DataFrame(articles).astype(str)`: every cell is a string. -/
structure PubPaper where
  pmid : String
  url : String
  title : String
  abstract : String
  authors : String
  year : String
deriving DecidableEq, Repr

/-- One row of `semantic_df` (source B) as built by
`fetch_semantic_scholar_papers` and `pd.DataFrame(papers).astype(str)`:
every cell is a string; a record with no PubMed identifier carries the
sentinel `pmid = "N/A"`. -/
structure SemPaper where
  title : String
  scholar_id : String
  abstract : String
  pdf_url : String
  authors : String
  year : String
  pmid : String
  citation_count_semantic : String
deriving DecidableEq, Repr

/-- `semantic_df[semantic_df["pmid"] != "N/A"]` (main.py line 446). -/
def semWithId (s : List SemPaper) : List SemPaper :=
  s.filter (fun b => !(b.pmid == "N/A"))

/-- `semantic_df[semantic_df["pmid"] == "N/A"]` (main.py line 447). -/
def semNoId (s : List SemPaper) : List SemPaper :=
  s.filter (fun b => b.pmid == "N/A")

/-- One row of `merged_df` directly after
`pd.merge(pubmed_df, filtered_semantic_df, on="pmid", how="outer",
suffixes=("_pubmed", "_semantic"))` (main.py lines 453-459), before the
per-field selection lambdas.  A `none` is a `NaN` cell from the outer join. -/
structure MergedRaw where
  pmid : String
  url : Option String
  title_pubmed : Option String
  abstract_pubmed : Option String
  authors_pubmed : Option String
  year_pubmed : Option String
  title_semantic : Option String
  scholar_id : Option String
  abstract_semantic : Option String
  pdf_url : Option String
  authors_semantic : Option String
  year_semantic : Option String
  citation_count_semantic : Option String
deriving DecidableEq, Repr

/-- Outer-join row for a pmid present in both sources. -/
def rawOfMatch (a : PubPaper) (b : SemPaper) : MergedRaw :=
  { pmid := a.pmid, url := some a.url, title_pubmed := some a.title,
    abstract_pubmed := some a.abstract, authors_pubmed := some a.authors,
    year_pubmed := some a.year, title_semantic := some b.title,
    scholar_id := some b.scholar_id, abstract_semantic := some b.abstract,
    pdf_url := some b.pdf_url, authors_semantic := some b.authors,
    year_semantic := some b.year,
    citation_count_semantic := some b.citation_count_semantic }

/-- Outer-join row for a pmid present only in `pubmed_df`. -/
def rawOfLeft (a : PubPaper) : MergedRaw :=
  { pmid := a.pmid, url := some a.url, title_pubmed := some a.title,
    abstract_pubmed := some a.abstract, authors_pubmed := some a.authors,
    year_pubmed := some a.year, title_semantic := none, scholar_id := none,
    abstract_semantic := none, pdf_url := none, authors_semantic := none,
    year_semantic := none, citation_count_semantic := none }

/-- Outer-join row for a pmid present only in `filtered_semantic_df`. -/
def rawOfRight (b : SemPaper) : MergedRaw :=
  { pmid := b.pmid, url := none, title_pubmed := none, abstract_pubmed := none,
    authors_pubmed := none, year_pubmed := none, title_semantic := some b.title,
    scholar_id := some b.scholar_id, abstract_semantic := some b.abstract,
    pdf_url := some b.pdf_url, authors_semantic := some b.authors,
    year_semantic := some b.year,
    citation_count_semantic := some b.citation_count_semantic }

/-- `pd.merge(..., on="pmid", how="outer")`: all key-matched pairs, then
left-only rows in place, then right-only rows. -/
def outerMerge (as : List PubPaper) (bs : List SemPaper) : List MergedRaw :=
  (as.flatMap (fun a =>
    let hits := bs.filter (fun b => b.pmid == a.pmid)
    if hits.isEmpty then [rawOfLeft a] else hits.map (fun b => rawOfMatch a b)))
  ++ ((bs.filter (fun b => as.all (fun a => !(a.pmid == b.pmid)))).map rawOfRight)

/-- The per-field selection lambdas of main.py lines 464-503 followed by the
column drop of lines 506-518: each combined column takes the `_pubmed` value
when it is not `NaN` (`pd.notna`) and otherwise the `_semantic` value;
`citation_count` takes `citation_count_semantic` when not `NaN` and the
integer 0 otherwise (`none` here). -/
def selectRow (m : MergedRaw) : Row :=
  { pmid := m.pmid
    url := m.url
    title := match m.title_pubmed with
      | some v => some v
      | none => m.title_semantic
    abstract := match m.abstract_pubmed with
      | some v => some v
      | none => m.abstract_semantic
    authors := match m.authors_pubmed with
      | some v => some v
      | none => m.authors_semantic
    year := match m.year_pubmed with
      | some v => some v
      | none => m.year_semantic
    pdf_url := m.pdf_url
    citation_count := m.citation_count_semantic }

/-- A `pubmed_df` row carried unchanged into the pool by the
one-source-empty branch (main.py line 521); the semantic-only columns are
absent and appear as `NaN` after `pd.concat`. -/
def rowOfPub (a : PubPaper) : Row :=
  { pmid := a.pmid, url := some a.url, title := some a.title,
    abstract := some a.abstract, authors := some a.authors,
    year := some a.year, pdf_url := none, citation_count := none }

/-- A semantic row carried into the pool (the `non_pubmed_df` rows of the
`pd.concat` at main.py line 524, or `filtered_semantic_df` in the
one-source-empty branch); pubmed-only columns appear as `NaN`. -/
def rowOfSem (b : SemPaper) : Row :=
  { pmid := b.pmid, url := none, title := some b.title,
    abstract := some b.abstract, authors := some b.authors,
    year := some b.year, pdf_url := some b.pdf_url, citation_count := none }

/-- `full_df` (main.py lines 451-524): the identifier-merged rows when both
sources contribute, otherwise the non-empty source's rows, followed by the
semantic records without identifier. -/
def candidatePool (p : List PubPaper) (s : List SemPaper) : List Row :=
  (if p.isEmpty = false ∧ (semWithId s).isEmpty = false then
    (outerMerge p (semWithId s)).map selectRow
  else if p.isEmpty = false then p.map rowOfPub
  else (semWithId s).map rowOfSem)
  ++ (semNoId s).map rowOfSem

/-! ## The response rows (`papers_list`, main.py lines 558-583) -/

/-- Decimal-digit parse; `digitsToNat` is total on all-digit strings. -/
def digitsToNat (l : List Char) : Nat :=
  l.foldl (fun n c => 10 * n + (c.toNat - 48)) 0

/-- Python `int(s)` restricted to the unsigned-decimal strings produced by
`str()` of a non-negative count; any other string raises `ValueError`. -/
def pyInt (s : String) : Except String Int :=
  if s.data ≠ [] ∧ s.data.all Char.isDigit then .ok (digitsToNat s.data)
  else .error "ValueError: int"

/-- Python `s.split(",")` on the character list. -/
def splitComma : List Char → List (List Char)
  | [] => [[]]
  | c :: cs =>
    match splitComma cs with
    | [] => [[c]]
    | g :: gs => if c = ',' then [] :: g :: gs else (c :: g) :: gs

/-- Python `s.strip()` (whitespace at both ends). -/
def stripChars (l : List Char) : List Char :=
  ((l.dropWhile Char.isWhitespace).reverse.dropWhile Char.isWhitespace).reverse

/-- `[author.strip() for author in row["authors"].split(",") if author.strip()]`
(main.py lines 567-571). -/
def splitAuthors (s : String) : List String :=
  (((splitComma s.data).map stripChars).filter (fun g => !(g.isEmpty))).map String.mk

/-- One entry of the `papers` array of the response (main.py lines 560-582). -/
structure PaperOut where
  title : Option String
  year : Option Int
  authors : List String
  abstract : Option String
  url : Option String
  citation_count : Int
  pdf_url : Option String
deriving DecidableEq, Repr

/-- One iteration of the `papers_list` loop (main.py lines 559-583).
`hasCitationCol` records whether the merge branch created the
`citation_count` column: when it did not, `row["citation_count"]` raises
`KeyError`.  `row["authors"].split` raises `AttributeError` on a `NaN` cell,
and `int` raises `ValueError` on a non-numeric citation string. -/
def paperOfRow (hasCitationCol : Bool) (r : Row) : Except String PaperOut := do
  if hasCitationCol = false then
    .error "KeyError: citation_count"
  else
    let authors ← match r.authors with
      | none => Except.error "AttributeError: split"
      | some a => .ok (splitAuthors a)
    let cc : Int ← match r.citation_count with
      | none => .ok 0
      | some s => pyInt s
    .ok { title := r.title
          year := match r.year with
            | none => none
            | some y =>
              if y.data ≠ [] ∧ y.data.all Char.isDigit then
                some (digitsToNat y.data)
              else none
          authors := authors
          abstract := r.abstract
          url := r.url
          citation_count := cc
          pdf_url := match r.pdf_url with
            | none => none
            | some p => if p = "N/A" then none else some p }

/-- Error-propagating map, the `for _, row in ... .iterrows()` loop. -/
def mapE (f : Row → Except String PaperOut) : List Row → Except String (List PaperOut)
  | [] => .ok []
  | r :: rs =>
    match f r with
    | .error e => .error e
    | .ok b =>
      match mapE f rs with
      | .error e => .error e
      | .ok bs => .ok (b :: bs)

/-! ## Overlap statistics (main.py lines 527-556) -/

/-- `len(set(pubmed_df["pmid"]) - set(filtered_semantic_df["pmid"]))`
(main.py line 538). -/
def uniqueToPubmedCount (p : List PubPaper) (s : List SemPaper) : Nat :=
  ((p.map PubPaper.pmid).dedup.filter
    (fun x => decide (x ∉ ((semWithId s).map SemPaper.pmid).dedup))).length

/-- `len(non_pubmed_df) + len(set(filtered_semantic_df["pmid"]) -
set(pubmed_df["pmid"]))` (main.py line 539). -/
def uniqueToSemanticCount (p : List PubPaper) (s : List SemPaper) : Nat :=
  (semNoId s).length +
  (((semWithId s).map SemPaper.pmid).dedup.filter
    (fun x => decide (x ∉ (p.map PubPaper.pmid).dedup))).length

/-- `len(pubmed_pmids.intersection(semantic_pmids))` (main.py line 530). -/
def overlappingPmidCount (p : List PubPaper) (s : List SemPaper) : Nat :=
  ((p.map PubPaper.pmid).dedup.filter
    (fun x => decide (x ∈ ((semWithId s).map SemPaper.pmid).dedup))).length

/-- The fields of the `SearchResponse` that the reconciliation itself
determines (the raw result counts of the two upstream fetches and the opaque
`search_id` are exchanged with external collaborators and carried through
unchanged; they are omitted here). -/
structure SearchOut where
  unique_to_pubmed : Nat
  unique_to_semantic : Nat
  duplicate_count : Nat
  papers : List PaperOut
deriving DecidableEq, Repr

/-- The reconciliation body of `search_papers` (main.py lines 444-596) on
already-fetched source rows.  A cleanly-empty source DataFrame has no
columns, so `semantic_df["pmid"]` (line 446) and `pubmed_df["pmid"]`
(line 528) raise `KeyError`, surfaced by the endpoint as an HTTP 500.  (The
line-528 check is written here before the candidate-pool construction of
lines 451-524; that construction is pure and raises nothing, so the
observable behaviour is identical.) -/
def search_papers (p : List PubPaper) (s : List SemPaper) : Except String SearchOut :=
  if s.isEmpty then .error "KeyError: pmid"
  else if p.isEmpty then .error "KeyError: pmid"
  else
    match mapE (paperOfRow (!p.isEmpty && !(semWithId s).isEmpty))
        (deduplicate_papers (candidatePool p s)) with
    | .error e => .error e
    | .ok papers =>
      .ok { unique_to_pubmed := uniqueToPubmedCount p s
            unique_to_semantic := uniqueToSemanticCount p s
            duplicate_count := overlappingPmidCount p s +
              ((candidatePool p s).length -
                (deduplicate_papers (candidatePool p s)).length)
            papers := papers }

/-! ## The result cache (`SearchCache`, main.py lines 17-54) -/

/-- One stored cache value: the deduplicated result DataFrame together with
its insertion timestamp (`{"df": df, "timestamp": datetime.now()}`). -/
structure CacheEntry where
  df : List Row
  timestamp : Nat
deriving DecidableEq, Repr

/-- The `SearchCache` state: an insertion-ordered association list modelling
the `OrderedDict`, plus the configured capacity and time-to-live
(`expiry_hours` in abstract time units). -/
structure SearchCache where
  cache : List (String × CacheEntry)
  max_size : Nat
  expiry : Nat
deriving DecidableEq, Repr

/-- A freshly constructed cache (`SearchCache(max_size, expiry_hours)`). -/
def SearchCache.empty (m e : Nat) : SearchCache :=
  { cache := [], max_size := m, expiry := e }

/-- `_cleanup_expired` (main.py lines 48-54): delete every entry whose age
exceeds the time-to-live.  `now - timestamp` is truncated subtraction; for a
non-negative time-to-live this agrees with Python's signed timedelta
comparison even for a timestamp in the future. -/
def SearchCache.cleanupExpired (c : SearchCache) (now : Nat) : SearchCache :=
  { c with cache := c.cache.filter (fun kv => !(decide (c.expiry < now - kv.2.timestamp))) }

/-- `OrderedDict` assignment `self.cache[k] = v`: replace in place when the
key exists (keeping its position), otherwise append at the end. -/
def odAssign (l : List (String × CacheEntry)) (k : String) (v : CacheEntry) :
    List (String × CacheEntry) :=
  if l.any (fun kv => kv.1 == k) then
    l.map (fun kv => if kv.1 == k then (k, v) else kv)
  else l ++ [(k, v)]

/-- `SearchCache.add` (main.py lines 23-35): sweep expired entries, evict the
oldest entry (`popitem(last=False)`) when at capacity, then store the new
entry under the fresh handle.  (With `max_size = 0` and an empty cache the
Python `popitem` would raise; the theorems below assume `1 ≤ max_size`,
default 100.) -/
def SearchCache.add (c : SearchCache) (now : Nat) (searchId : String)
    (df : List Row) : SearchCache :=
  let c := c.cleanupExpired now
  let cache1 := if c.max_size ≤ c.cache.length then c.cache.drop 1 else c.cache
  { c with cache := odAssign cache1 searchId { df := df, timestamp := now } }

/-- `SearchCache.get` (main.py lines 37-46): `None` for an unknown handle;
for a known handle, delete and return `None` when the entry's age strictly
exceeds the time-to-live, otherwise return the stored DataFrame.  The second
component is the cache state after the call. -/
def SearchCache.get (c : SearchCache) (now : Nat) (searchId : String) :
    Option (List Row) × SearchCache :=
  match c.cache.find? (fun kv => kv.1 == searchId) with
  | none => (none, c)
  | some kv =>
    if c.expiry < now - kv.2.timestamp then
      (none, { c with cache := c.cache.filter (fun e => !(e.1 == searchId)) })
    else (some kv.2.df, c)

/-- A sequence of `add` calls: each operation is (now, handle, DataFrame). -/
def SearchCache.addAll (c : SearchCache) (ops : List (Nat × String × List Row)) :
    SearchCache :=
  ops.foldl (fun acc op => acc.add op.1 op.2.1 op.2.2) c

/-! ## Concrete fixtures used by the theorems below -/

/-- A pool row carrying only a title, as the dedup pass consumes it. -/
def mkTitleRow (t : String) : Row :=
  { pmid := "", url := none, title := some t, abstract := none, authors := none,
    year := none, pdf_url := none, citation_count := none }

/-- Chain fixture A: title of 25 `a`s. -/
def chainRowA : Row := mkTitleRow (String.mk (List.replicate 25 'a'))

/-- Chain fixture B: title of 25 `a`s followed by `b` (scores 98 against A). -/
def chainRowB : Row := mkTitleRow (String.mk (List.replicate 25 'a' ++ ['b']))

/-- Chain fixture C: 25 `a`s, then `bc` (scores 98 against B, 96 against A). -/
def chainRowC : Row := mkTitleRow (String.mk (List.replicate 25 'a' ++ ['b', 'c']))

/-- A one-record PubMed source used by the pipeline theorems. -/
def pubFixture : PubPaper :=
  { pmid := "1", url := "u1", title := "aaaa", abstract := "ab", authors := "X Y",
    year := "2020" }

/-- Semantic-Scholar record sharing pmid `"1"` with `pubFixture`. -/
def semFixtureWithId : SemPaper :=
  { title := "aaaa!", scholar_id := "s1", abstract := "ab2", pdf_url := "N/A",
    authors := "X", year := "2020", pmid := "1", citation_count_semantic := "5" }

/-- Semantic-Scholar record without a PubMed identifier. -/
def semFixtureNoId : SemPaper :=
  { title := "zzzz", scholar_id := "s2", abstract := "ab3", pdf_url := "pdfB",
    authors := "Z", year := "2019", pmid := "N/A", citation_count_semantic := "3" }

/-- Source-A record with pmid `"123"` and a present, non-empty title. -/
def pubA123 : PubPaper :=
  { pmid := "123", url := "u", title := "T", abstract := "absA", authors := "auA",
    year := "2020" }

/-- Source-A record with pmid `"123"` and an *empty* title string. -/
def pubA123EmptyTitle : PubPaper :=
  { pmid := "123", url := "u", title := "", abstract := "absA", authors := "auA",
    year := "2020" }

/-- Source-B record with pmid `"123"`, title `"T2"` and citation count 7. -/
def semB123 : SemPaper :=
  { title := "T2", scholar_id := "s", abstract := "absB", pdf_url := "p",
    authors := "auB", year := "2021", pmid := "123", citation_count_semantic := "7" }

/-! ## Basic facts about the normalizer -/

theorem char_ofNat_toNat (m : Nat) (h : m < 55296) : (Char.ofNat m).toNat = m := by
  have hv : m.isValidChar := Or.inl h
  simp only [Char.ofNat, hv, dif_pos]
  simp [Char.ofNatAux, Char.toNat, UInt32.toNat, UInt32.ofNatCore]

theorem asciiLower_idem (c : Char) : asciiLower (asciiLower c) = asciiLower c := by
  unfold asciiLower
  by_cases h : 65 ≤ c.toNat ∧ c.toNat ≤ 90
  · have hr : (Char.ofNat (c.toNat + 32)).toNat = c.toNat + 32 :=
      char_ofNat_toNat _ (by omega)
    rw [if_pos h, if_neg]
    rw [hr]
    omega
  · rw [if_neg h, if_neg h]

theorem asciiLower_ne_euro (c : Char) (h : c ≠ '€') : asciiLower c ≠ '€' := by
  unfold asciiLower
  by_cases hc : 65 ≤ c.toNat ∧ c.toNat ≤ 90
  · rw [if_pos hc]
    intro he
    have ht := congrArg Char.toNat he
    rw [char_ofNat_toNat _ (by omega)] at ht
    have h8 : ('€' : Char).toNat = 8364 := by decide
    rw [h8] at ht
    omega
  · rw [if_neg hc]
    exact h

theorem asciiLower_of_punct (c : Char) (h : isPunct c = true) : asciiLower c = c := by
  unfold asciiLower
  rw [if_neg]
  simp only [isPunct, decide_eq_true_eq] at h
  omega

theorem removeArtifact_sublist : ∀ l : List Char, List.Sublist (removeArtifact l) l
  | [] => by simp [removeArtifact]
  | [c] => by simp [removeArtifact]
  | a :: b :: rest => by
    rw [removeArtifact]
    by_cases h : a = 'â' ∧ b = '€'
    · rw [if_pos h]
      exact (removeArtifact_sublist rest).trans
        ((List.sublist_cons_self b rest).trans (List.sublist_cons_self a (b :: rest)))
    · rw [if_neg h]
      exact (removeArtifact_sublist (b :: rest)).cons₂ a

theorem removeArtifact_eq_self : ∀ l : List Char, '€' ∉ l → removeArtifact l = l
  | [], _ => rfl
  | [_], _ => rfl
  | a :: b :: rest, h => by
    have hb : b ≠ '€' := by
      intro hb
      exact h (by simp [hb])
    rw [removeArtifact, if_neg (fun hc => hb hc.2)]
    have hrest : '€' ∉ b :: rest := fun hm => h (List.mem_cons_of_mem a hm)
    rw [removeArtifact_eq_self (b :: rest) hrest]

theorem removeArtifact_append_last : ∀ (x : List Char) (c : Char), c ≠ '€' →
    removeArtifact (x ++ [c]) = removeArtifact x ++ [c]
  | [], c, _ => rfl
  | [d], c, h => by
    show removeArtifact (d :: c :: []) = [d] ++ [c]
    rw [removeArtifact, if_neg (fun hc => h hc.2)]
    rfl
  | a :: b :: rest, c, h => by
    show removeArtifact (a :: b :: (rest ++ [c])) = removeArtifact (a :: b :: rest) ++ [c]
    rw [removeArtifact, removeArtifact]
    by_cases hab : a = 'â' ∧ b = '€'
    · rw [if_pos hab, if_pos hab]
      exact removeArtifact_append_last rest c h
    · rw [if_neg hab, if_neg hab]
      rw [show b :: (rest ++ [c]) = (b :: rest) ++ [c] by rfl]
      rw [removeArtifact_append_last (b :: rest) c h]
      rfl

theorem map_eq_self_of_fixed {α : Type} (f : α → α) :
    ∀ l : List α, (∀ c ∈ l, f c = c) → l.map f = l
  | [], _ => rfl
  | a :: as, h => by
    rw [List.map_cons, h a (List.mem_cons_self a as),
      map_eq_self_of_fixed f as (fun c hc => h c (List.mem_cons_of_mem a hc))]

theorem normalizeChars_mem (l : List Char) :
    ∀ c ∈ normalizeChars l, asciiLower c = c ∧ isPunct c = false ∧ ('€' ∉ l → c ≠ '€') := by
  intro c hc
  have hc1 : c ∈ (l.map asciiLower).filter (fun d => !(isPunct d)) :=
    (removeArtifact_sublist _).subset hc
  have hc2 := List.mem_filter.mp hc1
  obtain ⟨c', hc', rfl⟩ := List.mem_map.mp hc2.1
  refine ⟨asciiLower_idem c', ?_, fun hl => asciiLower_ne_euro c' (fun he => hl (he ▸ hc'))⟩
  have := hc2.2
  simp only [Bool.not_eq_true'] at this
  exact this

theorem normalizeChars_fixed (l : List Char) (h : '€' ∉ l) :
    normalizeChars (normalizeChars l) = normalizeChars l := by
  have hmem := normalizeChars_mem l
  show removeArtifact (((normalizeChars l).map asciiLower).filter (fun d => !(isPunct d))) =
    normalizeChars l
  rw [map_eq_self_of_fixed asciiLower _ (fun c hc => (hmem c hc).1)]
  rw [List.filter_eq_self.mpr (fun c hc => by simp [(hmem c hc).2.1])]
  exact removeArtifact_eq_self _ (fun hm => (hmem '€' hm).2.2 h rfl)

/-- Claim C6 (corrected), counterexample: title normalization is *not*
idempotent.  On `"ââ€€"` the single-pass artifact removal deletes the middle
`['â','€']` pair, leaving the outer `'â'` and `'€'` adjacent, so a second
normalization removes them too: `normalize(t) = "â€"` but
`normalize(normalize(t)) = ""`. -/
theorem normalize_title_not_idempotent_cex :
    normalize_title (normalize_title (String.mk ['â', 'â', '€', '€'])) ≠
      normalize_title (String.mk ['â', 'â', '€', '€']) := by decide

/-- Claim C6 (corrected, amended): title normalization is idempotent on every
title that does not contain the `'€'` character (in particular on all
ordinary titles); only strings in which artifact removal makes a new
`['â','€']` pair adjacent escape idempotence. -/
theorem normalize_title_idempotent_amended (t : String) (h : '€' ∉ t.data) :
    normalize_title (normalize_title t) = normalize_title t := by
  show String.mk (normalizeChars (normalizeChars t.data)) = String.mk (normalizeChars t.data)
  rw [normalizeChars_fixed t.data h]

/-- Witness for the amended C6 theorem at a concrete ordinary title. -/
theorem normalize_title_idempotent_amended_witness :
    '€' ∉ "Cancer, Therapy: Advances!".data ∧
      normalize_title (normalize_title "Cancer, Therapy: Advances!") =
        normalize_title "Cancer, Therapy: Advances!" :=
  ⟨by decide, normalize_title_idempotent_amended "Cancer, Therapy: Advances!" (by decide)⟩

/-! ## Facts about the similarity score -/

theorem lcsF_self_append (n : Nat) : ∀ (s u : List Char), 2 * s.length ≤ n →
    lcsF n s (s ++ u) = s.length := by
  induction n with
  | zero =>
    intro s u h
    match s with
    | [] => rfl
  | succ n ih =>
    intro s u h
    match s with
    | [] => rfl
    | a :: as =>
      simp only [List.cons_append, lcsF, if_pos rfl]
      have hn : 2 * as.length ≤ n := by simp at h; omega
      have hr := ih as u hn
      simp only [List.append_eq]
      rw [hr]
      simp [Nat.add_comm]

theorem lcs_self_append (s u : List Char) : lcs s (s ++ u) = s.length := by
  rw [lcs]
  exact lcsF_self_append _ s u (by simp; omega)

theorem lcs_self (s : List Char) : lcs s s = s.length := by
  have h := lcs_self_append s []
  rw [List.append_nil] at h
  exact h

theorem pyRound_ge_div (num den : Nat) : num / den ≤ pyRound num den := by
  unfold pyRound
  by_cases h1 : 2 * (num % den) < den
  · rw [if_pos h1]
  · rw [if_neg h1]
    by_cases h2 : den < 2 * (num % den)
    · rw [if_pos h2]; omega
    · rw [if_neg h2]
      by_cases h3 : num / den % 2 = 0
      · rw [if_pos h3]
      · rw [if_neg h3]; omega

theorem similarityScore_self (s : List Char) (h : s ≠ []) : similarityScore s s = 100 := by
  have he : s.isEmpty = false := by simp [List.isEmpty_iff]; exact h
  have hn : 1 ≤ s.length := by cases s with
    | nil => exact absurd rfl h
    | cons a as => simp
  rw [similarityScore, he]
  simp only [Bool.or_self, Bool.false_eq_true, if_false]
  rw [lcs_self]
  unfold pyRound
  have hden : s.length + s.length = 2 * s.length := by omega
  have hq : 200 * s.length / (s.length + s.length) = 100 := by
    rw [hden, show 200 * s.length = 100 * (2 * s.length) by ring]
    exact Nat.mul_div_cancel 100 (by omega)
  have hr : 200 * s.length % (s.length + s.length) = 0 := by
    rw [hden, show 200 * s.length = 100 * (2 * s.length) by ring]
    exact Nat.mul_mod_left 100 (2 * s.length)
  rw [hq, hr] at *
  simp only [hq, hr]
  rw [if_pos (by omega)]

theorem normalizeChars_insert_punct (u v : List Char) (c : Char) (h : isPunct c = true) :
    normalizeChars (u ++ c :: v) = normalizeChars (u ++ v) := by
  unfold normalizeChars
  rw [List.map_append, List.map_append, List.map_cons]
  rw [List.filter_append, List.filter_append, List.filter_cons]
  rw [asciiLower_of_punct c h, h]
  simp

theorem normalizeChars_append_space (t : List Char) :
    normalizeChars (t ++ [' ']) = normalizeChars t ++ [' '] := by
  unfold normalizeChars
  rw [List.map_append, List.filter_append]
  have h1 : ([' '] : List Char).map asciiLower = [' '] := by decide
  have h2 : (([' '] : List Char).filter (fun c => !(isPunct c))) = [' '] := by decide
  rw [h1, h2]
  exact removeArtifact_append_last _ ' ' (by decide)

theorem pyRound_space_threshold (n : Nat) :
    98 ≤ pyRound (200 * n) (2 * n + 1) ↔ 20 ≤ n := by
  constructor
  · intro h
    by_contra hlt
    rw [Nat.not_le] at hlt
    interval_cases n <;> exact absurd h (by decide)
  · intro h
    by_cases h25 : 25 ≤ n
    · refine le_trans ?_ (pyRound_ge_div _ _)
      rw [Nat.le_div_iff_mul_le (by omega)]
      omega
    · rw [Nat.not_le] at h25
      interval_cases n <;> decide

theorem similarityScore_append_space_iff (s : List Char) :
    98 ≤ similarityScore s (s ++ [' ']) ↔ 20 ≤ s.length := by
  by_cases hs : s = []
  · subst hs
    decide
  · have he : s.isEmpty = false := by simp [List.isEmpty_iff]; exact hs
    have he2 : (s ++ [' ']).isEmpty = false := by simp
    rw [similarityScore, he, he2]
    simp only [Bool.or_self, Bool.false_eq_true, if_false]
    rw [lcs_self_append]
    have hlen : (s ++ [' ']).length = s.length + 1 := by simp
    rw [hlen]
    have hden : s.length + (s.length + 1) = 2 * s.length + 1 := by omega
    rw [hden]
    exact pyRound_space_threshold s.length

/-- Claim C5 (corrected), counterexample: two titles differing only by a
single trailing space need *not* reach score 98 — for the short title
`"ab"` the score against `"ab "` is 80, below the 98 threshold, so the pair
is not treated as duplicates. -/
theorem compare_titles_trailing_space_cex :
    compare_paper_titles "ab" "ab " = false ∧
      similarityScore (normalizeChars "ab".data) (normalizeChars "ab ".data) = 80 := by
  decide

/-- Claim C5 (corrected, amended): two titles differing by a single
punctuation character normalize to the *same* string, hence score 100 ≥ 98
whenever the normalized title is non-empty; two titles differing by a single
trailing space score ≥ 98 *exactly* when the normalized title has length at
least 20 (lengths 20-24 round up to exactly 98; any shorter normalized
title scores at most 97, see the counterexample); and the concrete fixtures
behave as claimed: `"Effects of Drug X on Tumors"` matches
`"Effects of Drug X on Tumor"` and does not match
`"Effects of Drug Y on Tumors"`. -/
theorem compare_titles_threshold_amended :
    (∀ (u v : List Char) (c : Char), isPunct c = true →
      normalizeChars (u ++ c :: v) = normalizeChars (u ++ v) ∧
      (normalizeChars (u ++ v) ≠ [] →
        similarityScore (normalizeChars (u ++ v)) (normalizeChars (u ++ c :: v)) = 100)) ∧
    (∀ t : List Char,
      98 ≤ similarityScore (normalizeChars t) (normalizeChars (t ++ [' '])) ↔
        20 ≤ (normalizeChars t).length) ∧
    compare_paper_titles "Effects of Drug X on Tumors" "Effects of Drug X on Tumor" = true ∧
    compare_paper_titles "Effects of Drug X on Tumors" "Effects of Drug Y on Tumors" = false := by
  refine ⟨?_, ?_, by decide, by decide⟩
  · intro u v c h
    have heq := normalizeChars_insert_punct u v c h
    refine ⟨heq, fun hne => ?_⟩
    rw [heq]
    exact similarityScore_self _ hne
  · intro t
    rw [normalizeChars_append_space]
    exact similarityScore_append_space_iff _

/-- Witness for the amended C5 theorem: a punctuation-only difference at a
concrete title, and both directions of the trailing-space threshold — the
27-character fixture is matched, the 2-character counterexample title is
not. -/
theorem compare_titles_threshold_amended_witness :
    (isPunct '!' = true ∧
      normalizeChars ("Drug".data ++ '!' :: " X".data) =
        normalizeChars ("Drug".data ++ " X".data) ∧
      similarityScore (normalizeChars ("Drug".data ++ " X".data))
        (normalizeChars ("Drug".data ++ '!' :: " X".data)) = 100) ∧
    (20 ≤ (normalizeChars "Effects of Drug X on Tumors".data).length ∧
      98 ≤ similarityScore (normalizeChars "Effects of Drug X on Tumors".data)
        (normalizeChars ("Effects of Drug X on Tumors".data ++ [' '])) ∧
      ¬ 98 ≤ similarityScore (normalizeChars "ab".data)
        (normalizeChars ("ab".data ++ [' ']))) :=
  ⟨⟨by decide,
    (compare_titles_threshold_amended.1 "Drug".data " X".data '!' (by decide)).1,
    (compare_titles_threshold_amended.1 "Drug".data " X".data '!' (by decide)).2 (by decide)⟩,
   ⟨by decide,
    (compare_titles_threshold_amended.2.1 "Effects of Drug X on Tumors".data).mpr (by decide),
    fun h => absurd ((compare_titles_threshold_amended.2.1 "ab".data).mp h) (by decide)⟩⟩

/-! ## The greedy deduplication pass -/

/-- Claim C1 (corrected), counterexample: a concrete chain A ≈ B, B ≈ C,
A ≉ C (scores 98, 98, 96) in pool order [A, B, C] does *not* collapse to a
single survivor — the pass keeps two rows, A and C.  B is discarded by
comparison with A, and a discarded row is never used as a source of
comparisons, so C is only ever compared against A, which fails the
threshold. -/
theorem dedup_chain_cex :
    rowsMatch chainRowA chainRowB = true ∧
    rowsMatch chainRowB chainRowC = true ∧
    rowsMatch chainRowA chainRowC = false ∧
    deduplicate_papers [chainRowA, chainRowB, chainRowC] = [chainRowA, chainRowC] ∧
    (deduplicate_papers [chainRowA, chainRowB, chainRowC]).length ≠ 1 := by
  refine ⟨by decide, by decide, by decide, by decide, by decide⟩

/-- Claim C1 (corrected, amended): for any pool consisting of three records
A, B, C in that order with matches(A,B), matches(B,C) and ¬matches(A,C), the
fuzzy-dedup pass yields exactly *two* survivors, the first-seen record A and
the record C: B is discarded by comparison with A before ever serving as a
comparison source, so C survives. -/
theorem dedup_chain_amended (A B C : Row)
    (h1 : rowsMatch A B = true) (h2 : rowsMatch B C = true)
    (h3 : rowsMatch A C = false) :
    deduplicate_papers [A, B, C] = [A, C] := by
  unfold deduplicate_papers
  rw [dedupAux]
  rw [if_neg (by simp)]
  rw [dedupAux]
  rw [if_pos (by simp [h1])]
  rw [dedupAux]
  rw [if_neg (by simp [h3])]
  rw [dedupAux]

/-- Witness for the amended C1 theorem at the concrete chain fixture. -/
theorem dedup_chain_amended_witness :
    deduplicate_papers [chainRowA, chainRowB, chainRowC] = [chainRowA, chainRowC] :=
  dedup_chain_amended chainRowA chainRowB chainRowC (by decide) (by decide) (by decide)

theorem dedupAux_sublist : ∀ (l kept : List Row), List.Sublist (dedupAux kept l) l
  | [], _ => by simp [dedupAux]
  | r :: rs, kept => by
    rw [dedupAux]
    by_cases h : kept.any (fun k => rowsMatch k r) = true
    · rw [if_pos h]
      exact (dedupAux_sublist rs kept).trans (List.sublist_cons_self r rs)
    · rw [if_neg h]
      exact (dedupAux_sublist rs (kept ++ [r])).cons₂ r

/-- Claim C10 (confirmed): the fuzzy-dedup output is a subsequence of the
input (survivors appear unmodified, in their original relative order), and
for a non-empty input the first record always survives, in first position. -/
theorem dedup_sublist_and_head (l : List Row) :
    List.Sublist (deduplicate_papers l) l ∧
    (l ≠ [] → (deduplicate_papers l).head? = l.head?) := by
  constructor
  · exact dedupAux_sublist l []
  · intro h
    match l with
    | r :: rs =>
      unfold deduplicate_papers
      rw [dedupAux, if_neg (by simp)]
      rfl

/-- Witness for C10 at a concrete two-row pool. -/
theorem dedup_sublist_and_head_witness :
    List.Sublist (deduplicate_papers [chainRowA, chainRowB]) [chainRowA, chainRowB] ∧
      (deduplicate_papers [chainRowA, chainRowB]).head? = some chainRowA :=
  ⟨(dedup_sublist_and_head [chainRowA, chainRowB]).1,
   (dedup_sublist_and_head [chainRowA, chainRowB]).2 (by simp)⟩

/-! ## Facts about the result cache -/

theorem odAssign_length (l : List (String × CacheEntry)) (k : String) (v : CacheEntry) :
    (odAssign l k v).length =
      if l.any (fun kv => kv.1 == k) then l.length else l.length + 1 := by
  unfold odAssign
  split
  · simp
  · simp

theorem odAssign_fresh (l : List (String × CacheEntry)) (k : String) (v : CacheEntry)
    (h : ∀ kv ∈ l, kv.1 ≠ k) : odAssign l k v = l ++ [(k, v)] := by
  unfold odAssign
  rw [if_neg]
  intro hany
  obtain ⟨kv, hkv, hk⟩ := List.any_eq_true.mp hany
  exact h kv hkv (by simpa using hk)

theorem add_max_size (c : SearchCache) (now : Nat) (i : String) (df : List Row) :
    (c.add now i df).max_size = c.max_size := rfl

theorem add_expiry (c : SearchCache) (now : Nat) (i : String) (df : List Row) :
    (c.add now i df).expiry = c.expiry := rfl

theorem addAll_cons (c : SearchCache) (op : Nat × String × List Row)
    (ops : List (Nat × String × List Row)) :
    c.addAll (op :: ops) = (c.add op.1 op.2.1 op.2.2).addAll ops := rfl

theorem addAll_max_size : ∀ (ops : List (Nat × String × List Row)) (c : SearchCache),
    (c.addAll ops).max_size = c.max_size
  | [], _ => rfl
  | op :: ops, c => by
    rw [addAll_cons, addAll_max_size ops _, add_max_size]

theorem addAll_expiry : ∀ (ops : List (Nat × String × List Row)) (c : SearchCache),
    (c.addAll ops).expiry = c.expiry
  | [], _ => rfl
  | op :: ops, c => by
    rw [addAll_cons, addAll_expiry ops _, add_expiry]

theorem add_length_le (c : SearchCache) (now : Nat) (i : String) (df : List Row)
    (hm : 1 ≤ c.max_size) (hlen : c.cache.length ≤ c.max_size) :
    (c.add now i df).cache.length ≤ c.max_size := by
  have h1 : (c.cache.filter
      (fun kv => !(decide (c.expiry < now - kv.2.timestamp)))).length ≤ c.cache.length :=
    List.length_filter_le _ _
  simp only [SearchCache.add, SearchCache.cleanupExpired, odAssign_length]
  by_cases hcap : c.max_size ≤
      (c.cache.filter (fun kv => !(decide (c.expiry < now - kv.2.timestamp)))).length
  · simp only [if_pos hcap]
    split
    · simp only [List.length_drop]
      omega
    · simp only [List.length_drop]
      omega
  · simp only [if_neg hcap]
    split
    · omega
    · omega

theorem addAll_length_le : ∀ (ops : List (Nat × String × List Row)) (c : SearchCache),
    1 ≤ c.max_size → c.cache.length ≤ c.max_size →
    (c.addAll ops).cache.length ≤ c.max_size
  | [], _, _, hl => hl
  | op :: ops, c, hm, hl => by
    rw [addAll_cons]
    have h2 := add_length_le c op.1 op.2.1 op.2.2 hm hl
    have h3 := addAll_length_le ops (c.add op.1 op.2.1 op.2.2)
      (by rw [add_max_size]; exact hm) (by rw [add_max_size]; exact h2)
    rw [add_max_size] at h3
    exact h3

theorem cleanupExpired_uniform (c : SearchCache) (t : Nat)
    (hts : ∀ kv ∈ c.cache, kv.2.timestamp = t) : c.cleanupExpired t = c := by
  unfold SearchCache.cleanupExpired
  rw [List.filter_eq_self.mpr (fun kv hkv => by simp [hts kv hkv, Nat.sub_self])]

theorem drop_shift (x y : List (String × CacheEntry)) (h : 1 ≤ x.length) (k : Nat) :
    (x.drop 1 ++ y).drop k = (x ++ y).drop (k + 1) := by
  rw [← List.drop_append_of_le_length h, List.drop_drop, Nat.add_comm]

theorem add_uniform_fresh (c : SearchCache) (t : Nat) (i : String) (df : List Row)
    (hts : ∀ kv ∈ c.cache, kv.2.timestamp = t)
    (hfresh : ∀ kv ∈ c.cache, kv.1 ≠ i) :
    (c.add t i df).cache =
      (if c.max_size ≤ c.cache.length then c.cache.drop 1 else c.cache) ++
        [(i, CacheEntry.mk df t)] := by
  unfold SearchCache.add
  rw [cleanupExpired_uniform c t hts]
  by_cases hcap : c.max_size ≤ c.cache.length
  · simp only [if_pos hcap]
    exact odAssign_fresh _ i _ (fun kv hkv => hfresh kv (List.drop_subset 1 c.cache hkv))
  · simp only [if_neg hcap]
    exact odAssign_fresh _ i _ hfresh

theorem addAll_uniform (t : Nat) (dfs : String → List Row) :
    ∀ (ids : List String) (c : SearchCache),
    (∀ kv ∈ c.cache, kv.2.timestamp = t) →
    (∀ i ∈ ids, ∀ kv ∈ c.cache, kv.1 ≠ i) →
    ids.Nodup →
    1 ≤ c.max_size → c.cache.length ≤ c.max_size →
    (c.addAll (ids.map (fun i => (t, i, dfs i)))).cache =
      (c.cache ++ ids.map (fun i => (i, CacheEntry.mk (dfs i) t))).drop
        ((c.cache.length + ids.length) - c.max_size)
  | [], c, _, _, _, _, hl => by
    simp [SearchCache.addAll, Nat.sub_eq_zero_of_le hl]
  | i :: ids, c, hts, hfresh, hnd, hm, hl => by
    rw [List.map_cons, addAll_cons]
    have hadd := add_uniform_fresh c t i (dfs i) hts (fun kv hkv => hfresh i (by simp) kv hkv)
    have hts2 : ∀ kv ∈ (c.add t i (dfs i)).cache, kv.2.timestamp = t := by
      intro kv hkv
      rw [hadd] at hkv
      rcases List.mem_append.mp hkv with hkv | hkv
      · split at hkv
        · exact hts kv (List.drop_subset 1 c.cache hkv)
        · exact hts kv hkv
      · simp at hkv
        rw [hkv]
    have hfresh2 : ∀ j ∈ ids, ∀ kv ∈ (c.add t i (dfs i)).cache, kv.1 ≠ j := by
      intro j hj kv hkv
      rw [hadd] at hkv
      rcases List.mem_append.mp hkv with hkv | hkv
      · split at hkv
        · exact hfresh j (by simp [hj]) kv (List.drop_subset 1 c.cache hkv)
        · exact hfresh j (by simp [hj]) kv hkv
      · simp at hkv
        rw [hkv]
        show i ≠ j
        intro hij
        rw [hij] at hnd
        exact (List.nodup_cons.mp hnd).1 hj
    have hm2 : 1 ≤ (c.add t i (dfs i)).max_size := by rw [add_max_size]; exact hm
    have hl2 : (c.add t i (dfs i)).cache.length ≤ (c.add t i (dfs i)).max_size :=
      (by rw [add_max_size]; exact add_length_le c t i (dfs i) hm hl)
    have ih := addAll_uniform t dfs ids (c.add t i (dfs i)) hts2 hfresh2
      (List.nodup_cons.mp hnd).2 hm2 hl2
    rw [add_max_size] at ih
    rw [ih, hadd]
    by_cases hcap : c.max_size ≤ c.cache.length
    · have hne : 1 ≤ c.cache.length := le_trans hm hcap
      rw [if_pos hcap]
      have hlen1 : ((c.cache.drop 1 ++ [(i, CacheEntry.mk (dfs i) t)]).length +
          ids.length) - c.max_size = ids.length := by
        simp only [List.length_append, List.length_drop, List.length_cons, List.length_nil]
        omega
      rw [hlen1, List.append_assoc, drop_shift c.cache _ hne ids.length]
      have hlen2 : (c.cache.length + (i :: ids).length) - c.max_size = ids.length + 1 := by
        simp only [List.length_cons]
        omega
      rw [hlen2, List.map_cons]
      rfl
    · rw [if_neg hcap]
      have hlen3 : ((c.cache ++ [(i, CacheEntry.mk (dfs i) t)]).length + ids.length) -
          c.max_size = (c.cache.length + (i :: ids).length) - c.max_size := by
        simp only [List.length_append, List.length_cons, List.length_nil]
        omega
      rw [hlen3, List.append_assoc, List.map_cons]
      rfl

theorem find?_map_of_mem (F : String → CacheEntry) :
    ∀ (l : List String) (i : String), i ∈ l →
    (l.map (fun j => (j, F j))).find? (fun kv => kv.1 == i) = some (i, F i)
  | [], i, h => absurd h (List.not_mem_nil i)
  | j :: js, i, h => by
    rw [List.map_cons]
    by_cases hj : j = i
    · subst hj
      rw [List.find?_cons_of_pos _ (by simp)]
    · rw [List.find?_cons_of_neg _ (by simp [hj])]
      exact find?_map_of_mem F js i (by
        rcases List.mem_cons.mp h with h | h
        · exact absurd h.symm hj
        · exact h)

theorem find?_map_of_not_mem (F : String → CacheEntry) (l : List String) (i : String)
    (h : i ∉ l) :
    (l.map (fun j => (j, F j))).find? (fun kv => kv.1 == i) = none := by
  rw [List.find?_eq_none]
  intro kv hkv
  obtain ⟨j, hj, rfl⟩ := List.mem_map.mp hkv
  intro hji
  have hj2 : j = i := by simpa using hji
  exact h (hj2 ▸ hj)

/-- Claim C7 (confirmed): (i) after any sequence of `add` operations on a
cache whose size respects its capacity, at most `max_size` entries remain;
(ii) inserting `max_size + 1` distinct fresh handles into an empty cache (at
one time instant, so that no entry expires) leaves exactly the last
`max_size` entries: every handle but the first is still retrievable with its
stored DataFrame, and the first-inserted handle has been evicted and returns
`none`. -/
theorem cache_capacity_bound :
    (∀ (c : SearchCache) (ops : List (Nat × String × List Row)),
      1 ≤ c.max_size → c.cache.length ≤ c.max_size →
      (c.addAll ops).cache.length ≤ c.max_size) ∧
    (∀ (m e t : Nat) (i0 : String) (rest : List String) (dfs : String → List Row),
      1 ≤ m → (i0 :: rest).Nodup → rest.length = m →
      ((SearchCache.empty m e).addAll ((i0 :: rest).map (fun i => (t, i, dfs i)))).cache =
        rest.map (fun i => (i, CacheEntry.mk (dfs i) t)) ∧
      (((SearchCache.empty m e).addAll ((i0 :: rest).map (fun i => (t, i, dfs i)))).get t i0).1 =
        none ∧
      ∀ i ∈ rest,
        (((SearchCache.empty m e).addAll
          ((i0 :: rest).map (fun i => (t, i, dfs i)))).get t i).1 = some (dfs i)) := by
  constructor
  · intro c ops hm hl
    exact addAll_length_le ops c hm hl
  · intro m e t i0 rest dfs hm hnd hlen
    have hcache0 := addAll_uniform t dfs (i0 :: rest) (SearchCache.empty m e)
      (by intro kv hkv; simp [SearchCache.empty] at hkv)
      (by intro i _ kv hkv; simp [SearchCache.empty] at hkv)
      hnd hm (by simp [SearchCache.empty])
    have hcache : ((SearchCache.empty m e).addAll
        ((i0 :: rest).map (fun i => (t, i, dfs i)))).cache =
        rest.map (fun i => (i, CacheEntry.mk (dfs i) t)) := by
      rw [hcache0]
      simp only [SearchCache.empty, List.nil_append, List.length_nil, List.length_cons,
        Nat.zero_add, hlen]
      rw [show m + 1 - m = 1 by omega]
      rw [List.map_cons, List.drop_one, List.tail_cons]
    have hexp : ((SearchCache.empty m e).addAll
        ((i0 :: rest).map (fun i => (t, i, dfs i)))).expiry = e := by
      rw [addAll_expiry]
      rfl
    refine ⟨hcache, ?_, ?_⟩
    · have hf := find?_map_of_not_mem (fun j => CacheEntry.mk (dfs j) t) rest i0
        (List.nodup_cons.mp hnd).1
      simp only [SearchCache.get, hcache, hf]
    · intro i hi
      have hf := find?_map_of_mem (fun j => CacheEntry.mk (dfs j) t) rest i hi
      simp only [SearchCache.get, hcache, hf, hexp, Nat.sub_self]
      rw [if_neg (Nat.not_lt_zero e)]

/-- Witness for C7 at a concrete capacity-2 cache and three inserts. -/
theorem cache_capacity_bound_witness :
    ((SearchCache.empty 2 5).addAll
      (["a", "b", "c"].map (fun i => (0, i, ([] : List Row))))).cache.length ≤ 2 ∧
    ((SearchCache.empty 2 5).addAll
      (["a", "b", "c"].map (fun i => (0, i, ([] : List Row))))).cache =
      ["b", "c"].map (fun i => (i, CacheEntry.mk [] 0)) ∧
    (((SearchCache.empty 2 5).addAll
      (["a", "b", "c"].map (fun i => (0, i, ([] : List Row))))).get 0 "a").1 = none ∧
    (((SearchCache.empty 2 5).addAll
      (["a", "b", "c"].map (fun i => (0, i, ([] : List Row))))).get 0 "b").1 = some [] :=
  ⟨cache_capacity_bound.1 (SearchCache.empty 2 5) _ (by decide) (by decide),
   (cache_capacity_bound.2 2 5 0 "a" ["b", "c"] (fun _ => []) (by decide) (by decide)
     (by decide)).1,
   (cache_capacity_bound.2 2 5 0 "a" ["b", "c"] (fun _ => []) (by decide) (by decide)
     (by decide)).2.1,
   (cache_capacity_bound.2 2 5 0 "a" ["b", "c"] (fun _ => []) (by decide) (by decide)
     (by decide)).2.2 "b" (by simp)⟩

theorem find?_filter_out_none (l : List (String × CacheEntry)) (k : String) :
    (l.filter (fun e => !(e.1 == k))).find? (fun x => x.1 == k) = none := by
  rw [List.find?_eq_none]
  intro x hx
  have hm := (List.mem_filter.mp hx).2
  simp only [Bool.not_eq_true'] at hm
  simp [hm]

/-- Claim C8 (confirmed): `get` returns the stored DataFrame and leaves the
cache untouched when the handle is present and the entry's age is within the
time-to-live; when the entry is found expired (age strictly above the
time-to-live) it is deleted and `none` is returned, and a second `get` for
the same handle — at any later time — also returns `none`; an unknown handle
returns `none` with the cache untouched; and a `get` never reorders or adds
entries (the resulting cache is always a sublist of the original, so
eviction order remains insertion order regardless of accesses). -/
theorem cache_get_contract (c : SearchCache) (now : Nat) (k : String) :
    (∀ kv : String × CacheEntry, c.cache.find? (fun x => x.1 == k) = some kv →
      (now - kv.2.timestamp ≤ c.expiry → c.get now k = (some kv.2.df, c)) ∧
      (c.expiry < now - kv.2.timestamp →
        (c.get now k).1 = none ∧
        ∀ now2 : Nat, (((c.get now k).2).get now2 k).1 = none)) ∧
    (c.cache.find? (fun x => x.1 == k) = none → c.get now k = (none, c)) ∧
    List.Sublist ((c.get now k).2.cache) c.cache := by
  refine ⟨?_, ?_, ?_⟩
  · intro kv hf
    constructor
    · intro hle
      simp only [SearchCache.get, hf]
      rw [if_neg (by omega)]
    · intro hgt
      have h2 : c.get now k =
          (none, { c with cache := c.cache.filter (fun e => !(e.1 == k)) }) := by
        simp only [SearchCache.get, hf]
        rw [if_pos hgt]
      refine ⟨by rw [h2], ?_⟩
      intro now2
      rw [h2]
      simp only [SearchCache.get, find?_filter_out_none]
  · intro hf
    simp only [SearchCache.get, hf]
  · cases hf : c.cache.find? (fun x => x.1 == k) with
    | none =>
      simp only [SearchCache.get, hf]
      exact List.Sublist.refl _
    | some kv =>
      by_cases hgt : c.expiry < now - kv.2.timestamp
      · simp only [SearchCache.get, hf]
        rw [if_pos hgt]
        exact List.filter_sublist c.cache
      · simp only [SearchCache.get, hf]
        rw [if_neg hgt]

/-- Witness for C8 at a concrete one-entry cache: a within-TTL hit, an
expired lookup whose repeat also misses, and an unknown-handle miss. -/
theorem cache_get_contract_witness :
    (SearchCache.mk [("h", CacheEntry.mk [] 10)] 100 24).get 34 "h" =
      (some [], SearchCache.mk [("h", CacheEntry.mk [] 10)] 100 24) ∧
    ((SearchCache.mk [("h", CacheEntry.mk [] 10)] 100 24).get 35 "h").1 = none ∧
    ((((SearchCache.mk [("h", CacheEntry.mk [] 10)] 100 24).get 35 "h").2).get 99 "h").1 =
      none ∧
    (SearchCache.mk [("h", CacheEntry.mk [] 10)] 100 24).get 34 "nope" =
      (none, SearchCache.mk [("h", CacheEntry.mk [] 10)] 100 24) :=
  ⟨((cache_get_contract (SearchCache.mk [("h", CacheEntry.mk [] 10)] 100 24) 34 "h").1
      ("h", CacheEntry.mk [] 10) rfl).1 (by decide),
   (((cache_get_contract (SearchCache.mk [("h", CacheEntry.mk [] 10)] 100 24) 35 "h").1
      ("h", CacheEntry.mk [] 10) rfl).2 (by decide)).1,
   (((cache_get_contract (SearchCache.mk [("h", CacheEntry.mk [] 10)] 100 24) 35 "h").1
      ("h", CacheEntry.mk [] 10) rfl).2 (by decide)).2 99,
   (cache_get_contract (SearchCache.mk [("h", CacheEntry.mk [] 10)] 100 24) 34 "nope").2.1
      rfl⟩

/-- Claim C9 (confirmed): the time-to-live boundary is inclusive — for a
present handle, `get` returns the stored DataFrame iff the entry's age is at
most the time-to-live; in particular at age exactly equal to the
time-to-live the entry is still returned (and the cache is untouched), and
only a strictly greater age causes expiry. -/
theorem cache_ttl_boundary (c : SearchCache) (now : Nat) (k : String)
    (kv : String × CacheEntry)
    (hf : c.cache.find? (fun x => x.1 == k) = some kv) :
    ((c.get now k).1 = some kv.2.df ↔ now - kv.2.timestamp ≤ c.expiry) ∧
    (now - kv.2.timestamp = c.expiry → c.get now k = (some kv.2.df, c)) := by
  constructor
  · constructor
    · intro h
      by_contra hgt
      rw [Nat.not_le] at hgt
      simp only [SearchCache.get, hf] at h
      rw [if_pos hgt] at h
      simp at h
    · intro hle
      simp only [SearchCache.get, hf]
      rw [if_neg (by omega)]
  · intro heq
    simp only [SearchCache.get, hf]
    rw [if_neg (by omega)]

/-- Witness for C9: a lookup whose age exactly equals the time-to-live
still hits. -/
theorem cache_ttl_boundary_witness :
    (SearchCache.mk [("h", CacheEntry.mk [] 0)] 100 24).get 24 "h" =
      (some [], SearchCache.mk [("h", CacheEntry.mk [] 0)] 100 24) :=
  (cache_ttl_boundary (SearchCache.mk [("h", CacheEntry.mk [] 0)] 100 24) 24 "h"
    ("h", CacheEntry.mk [] 0) rfl).2 (by decide)

/-! ## The reconciliation pipeline: error behaviour, merge precedence,
statistics -/

/-- Claim C2 (code_bug): contrary to the documented graceful degradation —
and to the code's own comment "If one source is empty, use the non-empty
one" — a cleanly-empty source collection makes `search_papers` raise.  An
empty `semantic_df` has no `pmid` column, so line 446 raises
`KeyError('pmid')`; an empty `pubmed_df` likewise makes line 528 raise; in
both cases the endpoint returns HTTP 500 instead of passing the non-empty
source through (or returning an empty result with zero counts when both
sources are empty). -/
theorem search_papers_empty_source_raises :
    search_papers [] [] = .error "KeyError: pmid" ∧
    search_papers [pubFixture] [] = .error "KeyError: pmid" ∧
    search_papers [] [semFixtureNoId] = .error "KeyError: pmid" :=
  ⟨rfl, rfl, rfl⟩

/-- Claim C4 (corrected), counterexample: for identifier-matched records the
merge tests only `pd.notna`, never emptiness, so a *present but empty*
source-A field still wins.  With A's title the empty string and B's title
`"T2"`, the merged title is `""`, not the fallback `"T2"` that the claim's
"present/non-empty, otherwise B" rule would give. -/
theorem merge_precedence_cex :
    pubA123EmptyTitle.pmid = semB123.pmid ∧
    pubA123EmptyTitle.title = "" ∧
    semB123.title = "T2" ∧
    (selectRow (rawOfMatch pubA123EmptyTitle semB123)).title = some "" ∧
    (selectRow (rawOfMatch pubA123EmptyTitle semB123)).title ≠ some semB123.title := by
  refine ⟨rfl, rfl, rfl, rfl, by decide⟩

/-- Claim C4 (corrected, amended): for every identifier-matched pair the
merged record takes each shared field from source A whenever A's value is
non-null — which for matched rows is always, empty strings included — and
`citation_count` takes source B's value (defaulting to 0 only when B's cell
is null); fields present in only one source are carried from that source.
In particular, for A = (id "123", title "T", no citation data) and
B = (id "123", title "T2", citation count 7), the merged record has title
"T" and citation count 7. -/
theorem merge_precedence_amended (a : PubPaper) (b : SemPaper) (hid : a.pmid = b.pmid) :
    (selectRow (rawOfMatch a b)).title = some a.title ∧
    (selectRow (rawOfMatch a b)).abstract = some a.abstract ∧
    (selectRow (rawOfMatch a b)).authors = some a.authors ∧
    (selectRow (rawOfMatch a b)).year = some a.year ∧
    (selectRow (rawOfMatch a b)).url = some a.url ∧
    (selectRow (rawOfMatch a b)).pdf_url = some b.pdf_url ∧
    (selectRow (rawOfMatch a b)).citation_count = some b.citation_count_semantic :=
  ⟨rfl, rfl, rfl, rfl, rfl, rfl, rfl⟩

/-- Witness for the amended C4 theorem at the concrete fixture of the claim:
title "T" wins over "T2", and the citation count comes from source B. -/
theorem merge_precedence_amended_witness :
    pubA123.pmid = semB123.pmid ∧
    (selectRow (rawOfMatch pubA123 semB123)).title = some "T" ∧
    (selectRow (rawOfMatch pubA123 semB123)).citation_count = some "7" ∧
    pyInt "7" = .ok 7 :=
  ⟨rfl, (merge_precedence_amended pubA123 semB123 rfl).1,
   (merge_precedence_amended pubA123 semB123 rfl).2.2.2.2.2.2, rfl⟩

theorem dedup_filter_not_mem_card (l1 l2 : List String) :
    (l1.dedup.filter (fun x => decide (x ∉ l2.dedup))).length =
      (l1.toFinset \ l2.toFinset).card := by
  have nd : (l1.dedup.filter (fun x => decide (x ∉ l2.dedup))).Nodup :=
    (List.nodup_dedup l1).filter _
  have h1 : (l1.dedup.filter (fun x => decide (x ∉ l2.dedup))).toFinset.card =
      (l1.dedup.filter (fun x => decide (x ∉ l2.dedup))).length := by
    rw [List.card_toFinset, nd.dedup]
  rw [← h1]
  congr 1
  ext x
  simp only [List.mem_toFinset, List.mem_filter, List.mem_dedup, decide_eq_true_eq,
    Finset.mem_sdiff]

theorem dedup_filter_mem_card (l1 l2 : List String) :
    (l1.dedup.filter (fun x => decide (x ∈ l2.dedup))).length =
      (l1.toFinset ∩ l2.toFinset).card := by
  have nd : (l1.dedup.filter (fun x => decide (x ∈ l2.dedup))).Nodup :=
    (List.nodup_dedup l1).filter _
  have h1 : (l1.dedup.filter (fun x => decide (x ∈ l2.dedup))).toFinset.card =
      (l1.dedup.filter (fun x => decide (x ∈ l2.dedup))).length := by
    rw [List.card_toFinset, nd.dedup]
  rw [← h1]
  congr 1
  ext x
  simp only [List.mem_toFinset, List.mem_filter, List.mem_dedup, decide_eq_true_eq,
    Finset.mem_inter]

theorem mapE_length : ∀ (l : List Row) (f : Row → Except String PaperOut)
    (res : List PaperOut), mapE f l = .ok res → res.length = l.length
  | [], _, res, h => by
    simp only [mapE, Except.ok.injEq] at h
    rw [← h]
    rfl
  | r :: rs, f, res, h => by
    simp only [mapE] at h
    cases hf : f r with
    | error e =>
      rw [hf] at h
      simp at h
    | ok b =>
      rw [hf] at h
      cases hr : mapE f rs with
      | error e =>
        rw [hr] at h
        simp at h
      | ok bs =>
        rw [hr] at h
        simp only [Except.ok.injEq] at h
        rw [← h, List.length_cons, mapE_length rs f bs hr, List.length_cons]

/-- Claim C3 (confirmed): whenever the reconciliation completes, the
reported statistics satisfy the set-theoretic specification:
`unique_to_pubmed` is the number of identifiers in source A absent from
source B, `unique_to_semantic` is the number of source-B records lacking an
identifier plus the number of source-B identifiers absent from source A,
and `duplicate_count` is the size of the identifier intersection plus the
difference between the candidate-pool size and the final deduplicated size
(the number of returned papers). -/
theorem search_papers_statistics (p : List PubPaper) (s : List SemPaper)
    (out : SearchOut) (h : search_papers p s = .ok out) :
    out.unique_to_pubmed =
      ((p.map PubPaper.pmid).toFinset \
        ((semWithId s).map SemPaper.pmid).toFinset).card ∧
    out.unique_to_semantic =
      (semNoId s).length +
        (((semWithId s).map SemPaper.pmid).toFinset \
          (p.map PubPaper.pmid).toFinset).card ∧
    out.duplicate_count =
      ((p.map PubPaper.pmid).toFinset ∩
        ((semWithId s).map SemPaper.pmid).toFinset).card +
        ((candidatePool p s).length - out.papers.length) := by
  unfold search_papers at h
  by_cases hs : s.isEmpty = true
  · rw [if_pos hs] at h
    simp at h
  · rw [if_neg hs] at h
    by_cases hp : p.isEmpty = true
    · rw [if_pos hp] at h
      simp at h
    · rw [if_neg hp] at h
      cases hm : mapE (paperOfRow (!p.isEmpty && !(semWithId s).isEmpty))
          (deduplicate_papers (candidatePool p s)) with
      | error e =>
        rw [hm] at h
        simp at h
      | ok papers =>
        rw [hm] at h
        simp only [Except.ok.injEq] at h
        subst h
        refine ⟨?_, ?_, ?_⟩
        · show uniqueToPubmedCount p s = _
          unfold uniqueToPubmedCount
          exact dedup_filter_not_mem_card _ _
        · show uniqueToSemanticCount p s = _
          unfold uniqueToSemanticCount
          rw [dedup_filter_not_mem_card]
        · show overlappingPmidCount p s +
            ((candidatePool p s).length -
              (deduplicate_papers (candidatePool p s)).length) = _
          have hlen := mapE_length _ _ papers hm
          unfold overlappingPmidCount
          rw [dedup_filter_mem_card]
          show _ = _ + ((candidatePool p s).length - papers.length)
          rw [hlen]

/-- Witness for C3 at the end-to-end fixture: one identifier-matched pair
and one identifier-less semantic record reconcile with
`unique_to_pubmed = 0`, `unique_to_semantic = 1`, `duplicate_count = 1`. -/
theorem search_papers_statistics_witness :
    (search_papers [pubFixture] [semFixtureWithId, semFixtureNoId]).isOk = true ∧
    ∀ out : SearchOut, search_papers [pubFixture] [semFixtureWithId, semFixtureNoId] =
      .ok out →
      out.unique_to_pubmed =
        (([pubFixture].map PubPaper.pmid).toFinset \
          ((semWithId [semFixtureWithId, semFixtureNoId]).map SemPaper.pmid).toFinset).card ∧
      out.unique_to_semantic =
        (semNoId [semFixtureWithId, semFixtureNoId]).length +
          (((semWithId [semFixtureWithId, semFixtureNoId]).map SemPaper.pmid).toFinset \
            ([pubFixture].map PubPaper.pmid).toFinset).card ∧
      out.duplicate_count =
        (([pubFixture].map PubPaper.pmid).toFinset ∩
          ((semWithId [semFixtureWithId, semFixtureNoId]).map SemPaper.pmid).toFinset).card +
          ((candidatePool [pubFixture] [semFixtureWithId, semFixtureNoId]).length -
            out.papers.length) :=
  ⟨rfl, fun out h => search_papers_statistics _ _ out h⟩
